import Mathlib

/-!
Shallow embedding of the authentication flows of `galvyn-contrib-auth`
(handlers in `src/handler/`, OIDC client logic in `src/logic/oidc.rs`,
data model in `src/models.rs`) together with the error model of
`galvyn-core/src/stuff/api_error.rs`.

External collaborators are modelled as data:
* the session store (`tower_sessions`) is a string-keyed association list,
  with insert / get / remove mirroring its key-value contract;
* the database is a record of row lists, `rorm::query(...).optional()`
  becomes `List.find?`, `.all()` becomes `List.filter`;
* the WebAuthn ceremony library and the OIDC provider are oracles passed
  as function arguments (their outputs are whatever the library / network
  would have produced).
-/

namespace Galvyn

/-- Opaque ids (`uuid::Uuid`) are modelled as naturals; `Uuid::new_v4` freshness
is expressed by explicit freshness hypotheses where it matters. -/
abbrev Uuid := Nat

/-! ## Error model (`galvyn-core/src/stuff/api_error.rs`)

The variants of `ApiStatusCode` are taken from the exhaustive `match`es in
`api_error.rs` (`Display`, `emit_tracing_event`, `into_response`). -/

inductive ApiStatusCode
  | badRequest
  | invalidJson
  | missingPrivileges
  | unauthenticated
  | internalServerError
deriving DecidableEq

/-- The data of `InnerApiError` relevant to behaviour: status code and the
static context string (`location`, `source`, `trace_id` are diagnostics). -/
structure ApiError where
  code : ApiStatusCode
  context : Option String
deriving DecidableEq

/-- Mirrors `ApiError::new`. -/
def ApiError.new (code : ApiStatusCode) (context : String) : ApiError :=
  { code := code, context := some context }

/-- Mirrors `ApiError::bad_request`. -/
def ApiError.bad_request (context : String) : ApiError :=
  ApiError.new .badRequest context

/-- Mirrors `ApiError::server_error`. -/
def ApiError.server_error (context : String) : ApiError :=
  ApiError.new .internalServerError context

/-- Mirrors `impl_into_internal_server_error!`: infrastructure errors
(`rorm::Error`, `tower_sessions::session::Error`, ...) convert into an
`ApiError` with code `InternalServerError` and no context. -/
def ApiError.fromInfra : ApiError :=
  { code := .internalServerError, context := none }

instance {ε α : Type} [DecidableEq ε] [DecidableEq α] : DecidableEq (Except ε α) := fun x y =>
  match x, y with
  | .ok a, .ok b =>
    if h : a = b then .isTrue (congrArg Except.ok h)
    else .isFalse fun hh => h (Except.ok.inj hh)
  | .error a, .error b =>
    if h : a = b then .isTrue (congrArg Except.error h)
    else .isFalse fun hh => h (Except.error.inj hh)
  | .ok _, .error _ => .isFalse fun hh => Except.noConfusion hh
  | .error _, .ok _ => .isFalse fun hh => Except.noConfusion hh

/-- HTTP status chosen by `ApiError::into_response`:
`InternalServerError -> 500`, `Unauthenticated -> 401`, everything else 400. -/
def ApiStatusCode.httpStatus : ApiStatusCode → Nat
  | .internalServerError => 500
  | .unauthenticated => 401
  | _ => 400

/-! ## WebAuthn and OIDC value types (opaque library data) -/

abbrev CredentialId := Nat

/-- Opaque `webauthn_rs::prelude::Passkey`; only its credential id is observed. -/
structure Passkey where
  cred_id : CredentialId
deriving DecidableEq

/-- Opaque `webauthn_rs::prelude::AttestedPasskey`. -/
structure AttestedPasskey where
  cred_id : CredentialId
deriving DecidableEq

/-- Mirrors `models.rs`: `enum MaybeAttestedPasskey { NotAttested(Passkey), Attested(AttestedPasskey) }`. -/
inductive MaybeAttestedPasskey
  | notAttested (key : Passkey)
  | attested (key : AttestedPasskey)
deriving DecidableEq

/-- Mirrors `matches!(key, MaybeAttestedPasskey::Attested(_))`. -/
def MaybeAttestedPasskey.isAttested : MaybeAttestedPasskey → Bool
  | .notAttested _ => false
  | .attested _ => true

/-- Opaque `AttestedPasskeyAuthentication` challenge state. -/
abbrev AttestedPasskeyAuthentication := Nat

/-- Opaque browser response (`PublicKeyCredential`). -/
abbrev PublicKeyCredential := Nat

/-- Result of `finish_attested_passkey_authentication`; only `cred_id()` is observed. -/
structure AuthenticationResult where
  cred_id : CredentialId
deriving DecidableEq

abbrev CsrfToken := String
abbrev PkceCodeVerifier := String
abbrev Nonce := String
abbrev AuthorizationCode := String
abbrev AccessToken := String
abbrev IdToken := Nat
abbrev SigningAlg := Nat
abbrev SigningKey := Nat
abbrev AccessTokenHash := Nat

/-- Mirrors `logic/oidc.rs`: `struct OidcSessionState`. -/
structure OidcSessionState where
  csrf_token : CsrfToken
  pkce_code_verifier : PkceCodeVerifier
  nonce : Nonce
deriving DecidableEq

/-- Mirrors `logic/oidc.rs`: `struct OidcRequestState`. -/
structure OidcRequestState where
  code : AuthorizationCode
  state : CsrfToken
deriving DecidableEq

/-- Mirrors `local/handler.rs`: `struct LoginLocalWebauthnSessionData`. -/
structure LoginLocalWebauthnSessionData where
  identifier : String
  state : AttestedPasskeyAuthentication
deriving DecidableEq

/-! ## Session model

`tower_sessions::Session` is a per-client key to JSON-value map.  The values the
auth handlers ever store are enumerated by `SessValue`; a typed `get`/`remove`
of a key holding a value of a different shape is a deserialization error which
the handlers propagate as an infrastructure (`?`) error. -/

inductive SessValue
  | account (uuid : Uuid)
  | oidc (st : OidcSessionState)
  | webauthn (d : LoginLocalWebauthnSessionData)
deriving DecidableEq

abbrev SessionData := List (String × SessValue)

def sessionLookup (s : SessionData) (key : String) : Option SessValue :=
  (s.find? (fun e => e.1 == key)).map (·.2)

def sessionErase (s : SessionData) (key : String) : SessionData :=
  s.filter (fun e => e.1 != key)

def sessionInsert (s : SessionData) (key : String) (v : SessValue) : SessionData :=
  (key, v) :: sessionErase s key

/-! ## Database model (`models.rs`) -/

/-- Mirrors `models.rs`: `struct Account`. -/
structure Account where
  uuid : Uuid
  id : String
deriving DecidableEq

/-- Mirrors `models.rs`: `struct OidcAccount` (foreign key by value). -/
structure OidcAccount where
  uuid : Uuid
  issuer : String
  subject : String
  account : Uuid
deriving DecidableEq

/-- Mirrors `models.rs`: `struct LocalAccount`. -/
structure LocalAccount where
  uuid : Uuid
  password : Option String
  account : Uuid
deriving DecidableEq

/-- Mirrors `models.rs`: `struct WebAuthnKey`. -/
structure WebAuthnKey where
  uuid : Uuid
  local_account : Uuid
  label : String
  key : MaybeAttestedPasskey
deriving DecidableEq

structure Db where
  accounts : List Account
  oidcAccounts : List OidcAccount
  localAccounts : List LocalAccount
  webauthnKeys : List WebAuthnKey
deriving DecidableEq

/-- `rorm::query(Account.uuid).condition(Account.id.equals(identifier)).optional()`. -/
def Db.findAccountByIdent (db : Db) (identifier : String) : Option Uuid :=
  (db.accounts.find? (fun a => a.id == identifier)).map (·.uuid)

/-- `rorm::query(LocalAccount).condition(LocalAccount.account.equals(uuid)).optional()`. -/
def Db.findLocalByAccount (db : Db) (account : Uuid) : Option LocalAccount :=
  db.localAccounts.find? (fun l => l.account == account)

/-- `rorm::query(OidcAccount).condition(OidcAccount.account.equals(uuid)).optional()`. -/
def Db.findOidcByAccount (db : Db) (account : Uuid) : Option OidcAccount :=
  db.oidcAccounts.find? (fun o => o.account == account)

/-- `rorm::query(OidcAccount.account).condition(and![issuer.equals, subject.equals]).optional()`. -/
def Db.findOidcByIssSub (db : Db) (issuer subject : String) : Option OidcAccount :=
  db.oidcAccounts.find? (fun o => o.issuer == issuer && o.subject == subject)

/-- `rorm::query(WebAuthnKey.key).condition(WebAuthnKey.local_account.equals(uuid)).all()`. -/
def Db.keysOfLocal (db : Db) (local_uuid : Uuid) : List MaybeAttestedPasskey :=
  (db.webauthnKeys.filter (fun k => k.local_account == local_uuid)).map (·.key)

/-- `rorm::update(LocalAccount).set(LocalAccount.password, pw).condition(LocalAccount.account.equals(uuid))`. -/
def Db.setLocalPassword (db : Db) (account : Uuid) (pw : Option String) : Db :=
  { db with
    localAccounts := db.localAccounts.map fun l =>
      if l.account == account then { l with password := pw } else l }

def emptyDb : Db := { accounts := [], oidcAccounts := [], localAccounts := [], webauthnKeys := [] }

/-! ## OIDC client logic (`logic/oidc.rs`) -/

/-- Claims of a verified id token (`CoreIdTokenClaims`); the handlers observe
`issuer()`, `subject()` and `access_token_hash()`. -/
structure Claims where
  issuer : String
  subject : String
  access_token_hash : Option AccessTokenHash
deriving DecidableEq

/-- The provider's `TokenResponse`: `id_token()` and `access_token()`. -/
structure TokenResponse where
  id_token : Option IdToken
  access_token : AccessToken
deriving DecidableEq

/-- Mirrors `openidconnect::RequestTokenError`'s four variants.
`serverResponse` is an error response from the provider; `request` is a
transport failure (provider unreachable); `parse` and `other` cover the rest. -/
inductive RequestTokenError
  | serverResponse
  | request
  | parse
  | other
deriving DecidableEq

/-- Oracle bundling the outbound calls and cryptographic operations performed by
`Client::finish_login`: code-for-token exchange, id-token claim verification
against the nonce, and access-token-hash recomputation. -/
structure OidcProvider where
  exchange : AuthorizationCode → PkceCodeVerifier → Except RequestTokenError TokenResponse
  claimsOf : IdToken → Nonce → Except Unit Claims
  signing_alg : IdToken → Except Unit SigningAlg
  signing_key : IdToken → Except Unit SigningKey
  hash_from_token : AccessToken → SigningAlg → SigningKey → Except Unit AccessTokenHash

/-- Interaction events recorded by the embedding of `Client::finish_login`;
`exchangeCall` marks the authorization-code exchange HTTP call. -/
inductive OidcEvent
  | exchangeCall
deriving DecidableEq

/-- Mirrors `Client::finish_login` (`logic/oidc.rs` lines 111-176), additionally
returning the list of exchange calls performed during the run. -/
def Client.finish_login (provider : OidcProvider) (session : OidcSessionState)
    (request : OidcRequestState) : Except ApiError Claims × List OidcEvent :=
  if request.state ≠ session.csrf_token then
    (.error (ApiError.new .unauthenticated "Secret state is invalid"), [])
  else
    match provider.exchange request.code session.pkce_code_verifier with
    | .error e =>
      (.error (ApiError.new
          (match e with
            | .serverResponse => .internalServerError
            | _ => .unauthenticated)
          "Failed to exchange code"),
        [.exchangeCall])
    | .ok token_response =>
      match token_response.id_token with
      | none =>
        (.error (ApiError.server_error
            "Oidc provider did not provider an id token. This would suggest its not providing oidc."),
          [.exchangeCall])
      | some id_token =>
        match provider.claimsOf id_token session.nonce with
        | .error _ =>
          (.error (ApiError.new .unauthenticated "Failed to verify id token"), [.exchangeCall])
        | .ok claims =>
          match claims.access_token_hash with
          | none => (.ok claims, [.exchangeCall])
          | some expected_access_token_hash =>
            match provider.signing_alg id_token with
            | .error _ =>
              (.error (ApiError.server_error "Failed to retrieve signing algorithm"), [.exchangeCall])
            | .ok alg =>
              match provider.signing_key id_token with
              | .error _ =>
                (.error (ApiError.server_error "Failed to retrieve signing key"), [.exchangeCall])
              | .ok key =>
                match provider.hash_from_token token_response.access_token alg key with
                | .error _ =>
                  (.error (ApiError.server_error "Failed to recreate access token signature"),
                    [.exchangeCall])
                | .ok actual_access_token_hash =>
                  if actual_access_token_hash ≠ expected_access_token_hash then
                    (.error (ApiError.new .unauthenticated "Invalid access token"), [.exchangeCall])
                  else
                    (.ok claims, [.exchangeCall])

/-! ## Handlers: local flows (`handler/local/handler.rs`) -/

/-- Mirrors `local/schema.rs`: `struct LoginLocalPasswordRequest`. -/
structure LoginLocalPasswordRequest where
  identifier : String
  password : String
deriving DecidableEq

/-- Mirrors `login_local_password` (`local/handler.rs` lines 127-160).
The db is only read inside the transaction, so the handler returns the result
and the updated session. -/
def login_local_password (db : Db) (session : SessionData)
    (request : LoginLocalPasswordRequest) : Except ApiError Unit × SessionData :=
  match db.findAccountByIdent request.identifier with
  | none => (.error (ApiError.bad_request "Account not found"), session)
  | some account_uuid =>
    match db.findLocalByAccount account_uuid with
    | none => (.error (ApiError.bad_request "Not a local account"), session)
    | some local_account =>
      match local_account.password with
      | none => (.error (ApiError.bad_request "Account has no password"), session)
      | some local_account_password =>
        if local_account_password ≠ request.password then
          (.error (ApiError.bad_request "Passwords do not match"), session)
        else
          (.ok (), sessionInsert session "account" (.account account_uuid))

/-- Typed `session.get::<Uuid>("account")`: absent key is `none`, a value of a
different shape is a deserialization error propagated through `?`. -/
def sessionGetAccount (s : SessionData) : Except ApiError (Option Uuid) :=
  match sessionLookup s "account" with
  | none => .ok none
  | some (.account u) => .ok (some u)
  | some _ => .error ApiError.fromInfra

/-- Mirrors `set_local_password` (`local/handler.rs` lines 164-192).
On an error the transaction is dropped, so the returned db is unchanged. -/
def set_local_password (db : Db) (session : SessionData) (request : String) :
    Except ApiError Unit × Db :=
  match sessionGetAccount session with
  | .error e => (.error e, db)
  | .ok none => (.error (ApiError.bad_request "Not logged-in"), db)
  | .ok (some account_uuid) =>
    match db.findLocalByAccount account_uuid with
    | none => (.error (ApiError.bad_request "User is not a local one"), db)
    | some _ => (.ok (), db.setLocalPassword account_uuid (some request))

/-- Mirrors `delete_local_password` (`local/handler.rs` lines 194-226). -/
def delete_local_password (db : Db) (session : SessionData) :
    Except ApiError Unit × Db :=
  match sessionGetAccount session with
  | .error e => (.error e, db)
  | .ok none => (.error (ApiError.bad_request "Not logged-in"), db)
  | .ok (some account_uuid) =>
    match db.findLocalByAccount account_uuid with
    | none => (.error (ApiError.bad_request "User is not a local one"), db)
    | some local_row =>
      let has_webauthn := (db.keysOfLocal local_row.uuid).any MaybeAttestedPasskey.isAttested
      if !has_webauthn then
        (.error (ApiError.bad_request "User has no other login method"), db)
      else
        (.ok (), db.setLocalPassword account_uuid none)

/-- Verification oracle for `finish_attested_passkey_authentication`. -/
abbrev WebauthnVerify :=
  PublicKeyCredential → AttestedPasskeyAuthentication → Except Unit AuthenticationResult

/-- Mirrors `finish_login_local_webauthn` (`local/handler.rs` lines 75-125).
The first step removes the `"login_local_webauthn"` entry; every later failure
leaves that removal in place (the session layer saves the mutated record). -/
def finish_login_local_webauthn (verify : WebauthnVerify) (db : Db)
    (session : SessionData) (request : PublicKeyCredential) :
    Except ApiError Unit × SessionData :=
  let session' := sessionErase session "login_local_webauthn"
  match sessionLookup session "login_local_webauthn" with
  | none => (.error (ApiError.bad_request "No ongoing challenge"), session')
  | some (.webauthn data) =>
    (match verify request data.state with
    | .error _ =>
      (.error (ApiError.server_error "Failed to finish webauthn challenge"), session')
    | .ok authentication_result =>
      match db.findAccountByIdent data.identifier with
      | none => (.error (ApiError.bad_request "Account not found"), session')
      | some account_uuid =>
        match db.findLocalByAccount account_uuid with
        | none => (.error (ApiError.bad_request "Not a local account"), session')
        | some local_row =>
          let used_key := (db.keysOfLocal local_row.uuid).any fun k =>
            match k with
            | .notAttested _ => false
            | .attested key => key.cred_id == authentication_result.cred_id
          if !used_key then (.error (ApiError.bad_request "Used unknown key"), session')
          else (.ok (), sessionInsert session' "account" (.account account_uuid)))
  | some _ => (.error ApiError.fromInfra, session')

/-! ## Handlers: OIDC flows (`handler/oidc/handler.rs`) -/

/-- Mirrors `login_oidc` (`oidc/handler.rs` lines 15-22): `begin_login`'s
freshly generated url and state are inputs; the state is stored in the session
under the key `"login_oidc"` and a redirect to the url is returned. -/
def login_oidc (begin_result : String × OidcSessionState) (session : SessionData) :
    Except ApiError String × SessionData :=
  (.ok begin_result.1, sessionInsert session "login_oidc" (.oidc begin_result.2))

/-- Mirrors `finish_login_oidc` (`oidc/handler.rs` lines 24-89).
`fresh_account_uuid` / `fresh_oidc_uuid` are the two `Uuid::new_v4()` results;
`MaxStr::new` succeeds iff the string's length is at most 255.
Returns the response, the committed db and the final session. -/
def finish_login_oidc (provider : OidcProvider)
    (fresh_account_uuid fresh_oidc_uuid : Uuid) (db : Db) (session : SessionData)
    (request : OidcRequestState) : Except ApiError String × Db × SessionData :=
  let session' := sessionErase session "oidc_login_data"
  match sessionLookup session "oidc_login_data" with
  | none => (.error (ApiError.bad_request "No ongoing challenge"), db, session')
  | some (.oidc session_state) =>
    (match (Client.finish_login provider session_state request).1 with
    | .error e => (.error e, db, session')
    | .ok claims =>
      if ¬ claims.issuer.length ≤ 255 then
        (.error (ApiError.server_error "Issuer is too long"), db, session')
      else if ¬ claims.subject.length ≤ 255 then
        (.error (ApiError.server_error "Subject is too long"), db, session')
      else
        match db.findOidcByIssSub claims.issuer claims.subject with
        | some existing_row =>
          (.ok "/", db, sessionInsert session' "account" (.account existing_row.account))
        | none =>
          let db' : Db :=
            { db with
              accounts := db.accounts ++ [{ uuid := fresh_account_uuid, id := "" }],
              oidcAccounts := db.oidcAccounts ++
                [{ uuid := fresh_oidc_uuid, issuer := claims.issuer,
                   subject := claims.subject, account := fresh_account_uuid }] }
          (.ok "/", db', sessionInsert session' "account" (.account fresh_account_uuid)))
  | some _ => (.error ApiError.fromInfra, db, session')

/-! ## Handlers: discovery and logout -/

/-- Response of `get_login_flow` as constructed in `handler/mod.rs`:
`GetLoginFlowsResponse::Oidc(OidcLoginFlow {})` carries no further data,
`GetLoginFlowsResponse::Local(LocalLoginFlow { password, webauthn })`. -/
inductive GetLoginFlowsResponse
  | oidc
  | localFlow (password : Bool) (webauthn : Bool)
deriving DecidableEq

/-- Modelled from the spec: the `From<&'static str>` conversion consumed by the
older handler revision (`Err("Invalid account".into())` in `handler/mod.rs`) is
not under `src/`; design note 9 records that this revision returns
server-errors, not bad-requests, for a local/oidc type mismatch mid-flow. -/
def ApiError.fromStr (context : String) : ApiError :=
  { code := .internalServerError, context := some context }

/-- Mirrors `get_login_flow` (`handler/mod.rs` lines 30-80), instantiated at the
concrete model set of `models.rs`. -/
def get_login_flow (db : Db) (identifier : String) :
    Except ApiError (Option GetLoginFlowsResponse) :=
  match db.findAccountByIdent identifier with
  | none => .ok none
  | some user_pk =>
    match db.findOidcByAccount user_pk, db.findLocalByAccount user_pk with
    | some _, none => .ok (some .oidc)
    | none, some local_row =>
      let webauthn := (db.keysOfLocal local_row.uuid).any MaybeAttestedPasskey.isAttested
      .ok (some (.localFlow local_row.password.isSome webauthn))
    | _, _ => .error (ApiError.fromStr "Invalid account")

/-- Mirrors `logout` (`handler/core/handler.rs` lines 5-9):
`session.remove::<IgnoredAny>("account")`; `IgnoredAny` deserializes from any
stored value, so the removal itself never fails. -/
def logout (session : SessionData) : Except ApiError Unit × SessionData :=
  (.ok (), sessionErase session "account")

/-! ## Concrete sample data for witnesses -/

/-- A provider whose calls all succeed, with fixed claims and no access-token hash. -/
def sampleProvider : OidcProvider where
  exchange := fun _ _ => .ok { id_token := some 0, access_token := "token" }
  claimsOf := fun _ _ => .ok { issuer := "https://idp.example", subject := "alice", access_token_hash := none }
  signing_alg := fun _ => .ok 0
  signing_key := fun _ => .ok 0
  hash_from_token := fun _ _ _ => .ok 0

/-- A provider that cannot be reached: the exchange fails with a transport error. -/
def unreachableProvider : OidcProvider where
  exchange := fun _ _ => .error .request
  claimsOf := fun _ _ => .error ()
  signing_alg := fun _ => .error ()
  signing_key := fun _ => .error ()
  hash_from_token := fun _ _ _ => .error ()

/-- A second provider, yielding a different (issuer, subject) pair. -/
def otherProvider : OidcProvider where
  exchange := fun _ _ => .ok { id_token := some 0, access_token := "token" }
  claimsOf := fun _ _ => .ok { issuer := "https://idp.example", subject := "bob", access_token_hash := none }
  signing_alg := fun _ => .ok 0
  signing_key := fun _ => .ok 0
  hash_from_token := fun _ _ _ => .ok 0

def sampleOidcState : OidcSessionState :=
  { csrf_token := "csrf", pkce_code_verifier := "verifier", nonce := "nonce" }

/-- A verification oracle that accepts and reports credential id 7. -/
def sampleVerify : WebauthnVerify := fun _ _ => .ok { cred_id := 7 }

/-- Account "alice" with a password and one attested WebAuthn key. -/
def sampleLocalDb : Db :=
  { accounts := [{ uuid := 0, id := "alice" }],
    oidcAccounts := [],
    localAccounts := [{ uuid := 1, password := some "s3cret", account := 0 }],
    webauthnKeys := [{ uuid := 2, local_account := 1, label := "key", key := .attested { cred_id := 7 } }] }

/-- Account "carol" with a password and only a not-attested WebAuthn key. -/
def sampleNotAttestedDb : Db :=
  { accounts := [{ uuid := 0, id := "carol" }],
    oidcAccounts := [],
    localAccounts := [{ uuid := 1, password := some "s3cret", account := 0 }],
    webauthnKeys := [{ uuid := 2, local_account := 1, label := "key", key := .notAttested { cred_id := 7 } }] }

/-- Account "bob" with neither a LocalAccount nor an OidcAccount row. -/
def orphanDb : Db :=
  { accounts := [{ uuid := 0, id := "bob" }],
    oidcAccounts := [], localAccounts := [], webauthnKeys := [] }

/-- The database produced by a first successful OIDC finish on `emptyDb` for
the pair ("https://idp.example", "alice") with fresh uuids 1 and 2. -/
def oidcLinkDb1 : Db :=
  { accounts := [{ uuid := 1, id := "" }],
    oidcAccounts :=
      [{ uuid := 2, issuer := "https://idp.example", subject := "alice", account := 1 }],
    localAccounts := [], webauthnKeys := [] }

/-- Account "dora" linked to an OidcAccount row and to no LocalAccount row. -/
def oidcOnlyDb : Db :=
  { accounts := [{ uuid := 0, id := "dora" }],
    oidcAccounts := [{ uuid := 1, issuer := "https://idp.example", subject := "dora", account := 0 }],
    localAccounts := [], webauthnKeys := [] }

end Galvyn

namespace Galvyn

/-! ## Helper lemmas about the session map and list queries -/

theorem listFind_filter_of_excl {α : Type} (l : List α) (p q : α → Bool)
    (h : ∀ a, p a = true → q a = false) : (l.filter p).find? q = none := by
  induction l with
  | nil => rfl
  | cons a l ih =>
    by_cases hp : p a
    · simp only [List.filter_cons, hp, if_pos, List.find?_cons, h a hp]
      exact ih
    · simp only [List.filter_cons, hp]
      exact ih

theorem listFind_filter_of_imp {α : Type} (l : List α) (p q : α → Bool)
    (h : ∀ a, q a = true → p a = true) : (l.filter p).find? q = l.find? q := by
  induction l with
  | nil => rfl
  | cons a l ih =>
    by_cases hq : q a
    · simp [List.filter_cons, h a hq, List.find?_cons, hq]
    · have hq' : q a = false := by simpa using hq
      by_cases hp : p a
      · simp only [List.filter_cons, hp, if_pos, List.find?_cons, hq']
        exact ih
      · simp only [List.filter_cons, hp, Bool.false_eq_true, if_neg,
          List.find?_cons, hq']
        exact ih

theorem sessionLookup_erase_self (s : SessionData) (k : String) :
    sessionLookup (sessionErase s k) k = none := by
  unfold sessionLookup sessionErase
  rw [listFind_filter_of_excl]
  · rfl
  · intro a ha
    simp only [bne_iff_ne, ne_eq] at ha
    simpa using ha

theorem sessionLookup_erase_ne (s : SessionData) {k k' : String} (h : k ≠ k') :
    sessionLookup (sessionErase s k') k = sessionLookup s k := by
  unfold sessionLookup sessionErase
  rw [listFind_filter_of_imp]
  intro a ha
  simp only [beq_iff_eq] at ha
  simp only [bne_iff_ne, ne_eq, ha]
  exact h

theorem sessionErase_erase (s : SessionData) (k : String) :
    sessionErase (sessionErase s k) k = sessionErase s k := by
  unfold sessionErase
  rw [List.filter_filter]
  simp

theorem sessionLookup_insert_ne (s : SessionData) {k k' : String} (v : SessValue)
    (h : k ≠ k') : sessionLookup (sessionInsert s k' v) k = sessionLookup s k := by
  have hne : ((k', v).1 == k) = false := by
    simpa using fun hk => h hk.symm
  simp only [sessionInsert, sessionLookup, List.find?_cons, hne]
  exact sessionLookup_erase_ne s h

theorem listFind_append_of_none {α : Type} (p : α → Bool) (l1 l2 : List α)
    (h : l1.find? p = none) : (l1 ++ l2).find? p = l2.find? p := by
  induction l1 with
  | nil => rfl
  | cons a l1 ih =>
    by_cases ha : p a
    · simp [List.find?_cons, ha] at h
    · simp only [List.find?_cons, ha] at h
      simpa [List.find?_cons, ha] using ih h

/-- Absent challenge entry: the WebAuthn finish handler fails with
"No ongoing challenge". -/
theorem finish_webauthn_absent_fails (verify : WebauthnVerify) (db : Db)
    (t : SessionData) (request : PublicKeyCredential)
    (h : sessionLookup t "login_local_webauthn" = none) :
    (finish_login_local_webauthn verify db t request).1 =
      .error (ApiError.bad_request "No ongoing challenge") := by
  simp [finish_login_local_webauthn, h]

/-- Every run of the WebAuthn finish handler leaves the session without the
"login_local_webauthn" entry. -/
theorem finish_webauthn_session_erased (verify : WebauthnVerify) (db : Db)
    (s : SessionData) (request : PublicKeyCredential) :
    sessionLookup (finish_login_local_webauthn verify db s request).2
      "login_local_webauthn" = none := by
  have hself := sessionLookup_erase_self s "login_local_webauthn"
  have hins : ∀ u, sessionLookup
      (sessionInsert (sessionErase s "login_local_webauthn") "account" (SessValue.account u))
      "login_local_webauthn" = none := by
    intro u
    rw [sessionLookup_insert_ne _ _ (by decide)]
    exact hself
  simp only [finish_login_local_webauthn]
  repeat' split
  all_goals first | exact hself | apply hins

theorem sessionLookup_insert_self (s : SessionData) (k : String) (v : SessValue) :
    sessionLookup (sessionInsert s k v) k = some v := by
  simp [sessionInsert, sessionLookup, List.find?_cons]

/-- Successful OIDC finish run for a pair that is not yet linked: a fresh
Account and a fresh OidcAccount row are inserted and the session is logged in
as the fresh account. -/
theorem finish_oidc_run_insert (provider : OidcProvider) (a o : Uuid) (db : Db)
    (s : SessionData) (rq : OidcRequestState) (st : OidcSessionState) (c : Claims)
    (hpop : sessionLookup s "oidc_login_data" = some (.oidc st))
    (hc : (Client.finish_login provider st rq).1 = .ok c)
    (hiss : c.issuer.length ≤ 255) (hsub : c.subject.length ≤ 255)
    (habsent : db.findOidcByIssSub c.issuer c.subject = none) :
    finish_login_oidc provider a o db s rq =
      (.ok "/",
       { db with
         accounts := db.accounts ++ [{ uuid := a, id := "" }],
         oidcAccounts := db.oidcAccounts ++
           [{ uuid := o, issuer := c.issuer, subject := c.subject, account := a }] },
       sessionInsert (sessionErase s "oidc_login_data") "account" (.account a)) := by
  simp [finish_login_oidc, hpop, hc, hiss, hsub, habsent]

/-- Successful OIDC finish run for an already-linked pair: no row is inserted
and the session is logged in as the linked account. -/
theorem finish_oidc_run_reuse (provider : OidcProvider) (a o : Uuid) (db : Db)
    (s : SessionData) (rq : OidcRequestState) (st : OidcSessionState) (c : Claims)
    (row : OidcAccount)
    (hpop : sessionLookup s "oidc_login_data" = some (.oidc st))
    (hc : (Client.finish_login provider st rq).1 = .ok c)
    (hiss : c.issuer.length ≤ 255) (hsub : c.subject.length ≤ 255)
    (hfound : db.findOidcByIssSub c.issuer c.subject = some row) :
    finish_login_oidc provider a o db s rq =
      (.ok "/", db,
       sessionInsert (sessionErase s "oidc_login_data") "account" (.account row.account)) := by
  simp [finish_login_oidc, hpop, hc, hiss, hsub, hfound]

/-- The boolean "has at least one attested key" test of the handlers, in
propositional form over the key table. -/
theorem hasAttested_iff (db : Db) (u : Uuid) :
    (db.keysOfLocal u).any MaybeAttestedPasskey.isAttested = true ↔
      ∃ k ∈ db.webauthnKeys, k.local_account = u ∧ k.key.isAttested = true := by
  simp [Db.keysOfLocal, List.any_map, List.any_eq_true, List.mem_filter, beq_iff_eq,
    Function.comp]
  constructor
  · rintro ⟨k, ⟨hk, hu⟩, hatt⟩
    exact ⟨k, hk, hu, hatt⟩
  · rintro ⟨k, hk, hu, hatt⟩
    exact ⟨k, ⟨hk, hu⟩, hatt⟩

/-! ## Claim theorems -/

/-- Claim C10: POST /logout succeeds for every session, including one with no
"account" entry (removing the absent key is not an error), and it is
idempotent: after one logout a second logout also succeeds and leaves the
session in the same account-less state. -/
theorem logout_total_idempotent (s : SessionData) :
    (logout s).1 = .ok () ∧
    sessionLookup (logout s).2 "account" = none ∧
    (logout (logout s).2).1 = .ok () ∧
    (logout (logout s).2).2 = (logout s).2 := by
  refine ⟨rfl, sessionLookup_erase_self s "account", rfl, ?_⟩
  simp only [logout]
  exact sessionErase_erase s "account"

/-- Claim C1 (code bug): the OIDC login start handler stores the session state
under the key "login_oidc", while the finish handler removes the key
"oidc_login_data"; hence after a start, finish does not find the stashed state
and fails with "No ongoing challenge" even though a start preceded it in the
session. -/
theorem oidc_start_finish_key_mismatch :
    (login_oidc ("https://idp.example/auth", sampleOidcState) []).2 =
      [("login_oidc", SessValue.oidc sampleOidcState)] ∧
    (finish_login_oidc sampleProvider 1 2 emptyDb
        (login_oidc ("https://idp.example/auth", sampleOidcState) []).2
        { code := "code", state := "csrf" }).1 =
      .error (ApiError.bad_request "No ongoing challenge") := by
  exact ⟨rfl, by decide⟩

/-- Claim C3: when the request's state differs from the csrf_token stored in
the session state, Client::finish_login fails before the token exchange — the
run records zero exchange calls and returns the "Secret state is invalid"
unauthenticated error. -/
theorem csrf_mismatch_no_exchange (provider : OidcProvider)
    (session : OidcSessionState) (request : OidcRequestState)
    (h : request.state ≠ session.csrf_token) :
    (Client.finish_login provider session request).2 = [] ∧
    (Client.finish_login provider session request).1 =
      .error (ApiError.new .unauthenticated "Secret state is invalid") := by
  constructor <;> simp [Client.finish_login, h]

theorem csrf_mismatch_no_exchange_witness :
    (Client.finish_login sampleProvider sampleOidcState { code := "c", state := "evil" }).2 = [] ∧
    (Client.finish_login sampleProvider sampleOidcState { code := "c", state := "evil" }).1 =
      .error (ApiError.new .unauthenticated "Secret state is invalid") :=
  csrf_mismatch_no_exchange sampleProvider sampleOidcState { code := "c", state := "evil" }
    (by decide)

/-- Claim C7 counterexample: with the provider unreachable (a transport error
on the code exchange) and a matching CSRF state, Client::finish_login
classifies the failure as Unauthenticated (HTTP 401), not as a server-class
error. -/
theorem exchange_unreachable_not_server_class :
    (Client.finish_login unreachableProvider sampleOidcState
        { code := "c", state := "csrf" }).1 =
      .error (ApiError.new .unauthenticated "Failed to exchange code") ∧
    (ApiError.new .unauthenticated "Failed to exchange code").code ≠ .internalServerError ∧
    ApiStatusCode.unauthenticated.httpStatus = 401 := by decide

/-- Claim C7 (amended): a CSRF-state mismatch and an id-token verification
failure are each classified Unauthenticated (client-class); during the
authorization-code exchange only a provider error response is classified
server-class, while every other exchange failure — including a transport
failure reaching the provider — is classified Unauthenticated. -/
theorem finish_login_error_classification (provider : OidcProvider)
    (session : OidcSessionState) (request : OidcRequestState) :
    (request.state ≠ session.csrf_token →
      (Client.finish_login provider session request).1 =
        .error (ApiError.new .unauthenticated "Secret state is invalid")) ∧
    (∀ e, request.state = session.csrf_token →
      provider.exchange request.code session.pkce_code_verifier = .error e →
      (Client.finish_login provider session request).1 =
        .error (ApiError.new
          (if e = .serverResponse then .internalServerError else .unauthenticated)
          "Failed to exchange code")) ∧
    (∀ token id_token, request.state = session.csrf_token →
      provider.exchange request.code session.pkce_code_verifier = .ok token →
      token.id_token = some id_token →
      provider.claimsOf id_token session.nonce = .error () →
      (Client.finish_login provider session request).1 =
        .error (ApiError.new .unauthenticated "Failed to verify id token")) := by
  refine ⟨fun h => by simp [Client.finish_login, h], ?_, ?_⟩
  · intro e hstate hex
    cases e <;> simp [Client.finish_login, hstate, hex]
  · intro token idt hstate hex hid hcl
    simp [Client.finish_login, hstate, hex, hid, hcl]

theorem finish_login_error_classification_witness :
    (Client.finish_login unreachableProvider sampleOidcState
        { code := "c", state := "csrf" }).1 =
      .error (ApiError.new
        (if RequestTokenError.request = .serverResponse then .internalServerError
          else .unauthenticated)
        "Failed to exchange code") :=
  (finish_login_error_classification unreachableProvider sampleOidcState
    { code := "c", state := "csrf" }).2.1 .request rfl rfl

/-- Claim C6 counterexample: with no "account" entry in the session, both
PUT /local/password and DELETE /local/password fail with the 400-class
bad-request error "Not logged-in", whose HTTP status is 400, not 401. -/
theorem not_logged_in_counterexample :
    (set_local_password sampleLocalDb [] "pw").1 =
      .error (ApiError.bad_request "Not logged-in") ∧
    (delete_local_password sampleLocalDb []).1 =
      .error (ApiError.bad_request "Not logged-in") ∧
    (ApiError.bad_request "Not logged-in").code.httpStatus = 400 ∧
    (ApiError.bad_request "Not logged-in").code.httpStatus ≠ 401 := by decide

/-- Claim C6 (amended): a request to PUT /local/password or
DELETE /local/password whose session has no "account" entry fails with the
400-class bad-request error "Not logged-in" — the same 400 class as the other
client failures, not a 401. -/
theorem not_logged_in_is_bad_request (db : Db) (s : SessionData) (request : String)
    (h : sessionLookup s "account" = none) :
    (set_local_password db s request).1 = .error (ApiError.bad_request "Not logged-in") ∧
    (delete_local_password db s).1 = .error (ApiError.bad_request "Not logged-in") ∧
    (ApiError.bad_request "Not logged-in").code.httpStatus = 400 := by
  refine ⟨?_, ?_, rfl⟩ <;>
    simp [set_local_password, delete_local_password, sessionGetAccount, h]

theorem not_logged_in_is_bad_request_witness :
    (set_local_password sampleLocalDb [] "pw").1 =
      .error (ApiError.bad_request "Not logged-in") :=
  (not_logged_in_is_bad_request sampleLocalDb [] "pw" rfl).1

/-- Claim C9: the three password-login failure cases — unknown identifier, not
a local account, absent or mismatching password — all produce errors of the
same 400 class (indeed every error of this handler is a BadRequest), so the
response status class does not reveal which check failed. -/
theorem login_password_uniform_client_error (db : Db) (s : SessionData)
    (request : LoginLocalPasswordRequest) :
    (∀ e, (login_local_password db s request).1 = .error e →
      e.code = .badRequest ∧ e.code.httpStatus = 400) ∧
    (db.findAccountByIdent request.identifier = none →
      (login_local_password db s request).1 =
        .error (ApiError.bad_request "Account not found")) ∧
    (∀ account_uuid, db.findAccountByIdent request.identifier = some account_uuid →
      db.findLocalByAccount account_uuid = none →
      (login_local_password db s request).1 =
        .error (ApiError.bad_request "Not a local account")) ∧
    (∀ account_uuid local_row,
      db.findAccountByIdent request.identifier = some account_uuid →
      db.findLocalByAccount account_uuid = some local_row →
      (local_row.password = none ∨ local_row.password ≠ some request.password) →
      ∃ e, (login_local_password db s request).1 = .error e ∧ e.code = .badRequest) := by
  refine ⟨?_, ?_, ?_, ?_⟩
  · intro e he
    unfold login_local_password at he
    repeat' split at he
    all_goals first
      | (injection he with he1; subst he1; exact ⟨rfl, rfl⟩)
      | (injection he)
  · intro h
    simp [login_local_password, h]
  · intro account_uuid hfa hl
    simp [login_local_password, hfa, hl]
  · intro account_uuid local_row hfa hl hpw
    cases hp : local_row.password with
    | none =>
      exact ⟨ApiError.bad_request "Account has no password",
        by simp [login_local_password, hfa, hl, hp], rfl⟩
    | some pw =>
      rcases hpw with hnone | hne
      · rw [hp] at hnone
        cases hnone
      · have hne' : pw ≠ request.password := by
          intro hh
          exact hne (by rw [hp, hh])
        exact ⟨ApiError.bad_request "Passwords do not match",
          by simp [login_local_password, hfa, hl, hp, hne'], rfl⟩

theorem login_password_uniform_client_error_witness :
    (login_local_password emptyDb [] { identifier := "alice", password := "pw" }).1 =
      .error (ApiError.bad_request "Account not found") :=
  (login_password_uniform_client_error emptyDb []
    { identifier := "alice", password := "pw" }).2.1 rfl

/-- Claim C2: for a logged-in local account, DELETE /local/password succeeds
iff at least one WebAuthnKey of that account's LocalAccount row is of the
Attested variant; with zero attested keys (however many NotAttested keys
exist) it fails with the client error "User has no other login method" and the
database — in particular the stored password — is unchanged. -/
theorem delete_local_password_last_factor (db : Db) (s : SessionData)
    (account_uuid : Uuid) (local_row : LocalAccount)
    (hsession : sessionLookup s "account" = some (.account account_uuid))
    (hlocal : db.findLocalByAccount account_uuid = some local_row) :
    ((delete_local_password db s).1 = .ok () ↔
      ∃ k ∈ db.webauthnKeys, k.local_account = local_row.uuid ∧ k.key.isAttested = true) ∧
    ((¬ ∃ k ∈ db.webauthnKeys, k.local_account = local_row.uuid ∧ k.key.isAttested = true) →
      (delete_local_password db s).1 =
        .error (ApiError.bad_request "User has no other login method") ∧
      (delete_local_password db s).2 = db ∧
      ((delete_local_password db s).2.findLocalByAccount account_uuid).map (·.password) =
        (db.findLocalByAccount account_uuid).map (·.password)) := by
  have hget : sessionGetAccount s = .ok (some account_uuid) := by
    simp [sessionGetAccount, hsession]
  by_cases hw : (db.keysOfLocal local_row.uuid).any MaybeAttestedPasskey.isAttested = true
  · have hex := (hasAttested_iff db local_row.uuid).mp hw
    have hres : (delete_local_password db s).1 = .ok () := by
      simp [delete_local_password, hget, hlocal, hw]
    exact ⟨iff_of_true hres hex, fun hn => absurd hex hn⟩
  · have hnex : ¬ ∃ k ∈ db.webauthnKeys,
        k.local_account = local_row.uuid ∧ k.key.isAttested = true :=
      fun hx => hw ((hasAttested_iff db local_row.uuid).mpr hx)
    have hw' : (db.keysOfLocal local_row.uuid).any MaybeAttestedPasskey.isAttested = false := by
      simpa using hw
    have hres : delete_local_password db s =
        (.error (ApiError.bad_request "User has no other login method"), db) := by
      simp [delete_local_password, hget, hlocal, hw']
    refine ⟨iff_of_false (by simp [hres]) hnex,
      fun _ => ⟨by simp [hres], by simp [hres], by simp [hres]⟩⟩

theorem delete_local_password_last_factor_witness :
    (delete_local_password sampleLocalDb [("account", SessValue.account 0)]).1 = .ok () :=
  (delete_local_password_last_factor sampleLocalDb [("account", SessValue.account 0)] 0
    { uuid := 1, password := some "s3cret", account := 0 }
    (by decide) (by decide)).1.mpr (by decide)

/-- Claim C5: a WebAuthn login finish whose session holds no
"login_local_webauthn" entry fails with the "No ongoing challenge" client
error (a returned error, never a crash and never a success), and every finish
call removes the entry — so immediately re-running finish on the resulting
session fails with "No ongoing challenge": a start-produced challenge is
consumed by at most one finish call. -/
theorem webauthn_finish_single_use (verify : WebauthnVerify) (db : Db)
    (s : SessionData) (request request' : PublicKeyCredential) :
    (sessionLookup s "login_local_webauthn" = none →
      (finish_login_local_webauthn verify db s request).1 =
        .error (ApiError.bad_request "No ongoing challenge")) ∧
    sessionLookup (finish_login_local_webauthn verify db s request).2
      "login_local_webauthn" = none ∧
    (finish_login_local_webauthn verify db
        (finish_login_local_webauthn verify db s request).2 request').1 =
      .error (ApiError.bad_request "No ongoing challenge") := by
  refine ⟨fun h => finish_webauthn_absent_fails verify db s request h, ?_, ?_⟩
  · exact finish_webauthn_session_erased verify db s request
  · exact finish_webauthn_absent_fails verify db _ request'
      (finish_webauthn_session_erased verify db s request)

theorem webauthn_finish_single_use_witness :
    (finish_login_local_webauthn sampleVerify sampleLocalDb [] 0).1 =
      .error (ApiError.bad_request "No ongoing challenge") :=
  (webauthn_finish_single_use sampleVerify sampleLocalDb [] 0 0).1 rfl

/-- Claim C8 counterexample: "bob" is a stored Account with no LocalAccount
row (and no OidcAccount row either); login-flow discovery for "bob" returns an
error, not a successful response reporting the OIDC flow. -/
theorem discovery_no_local_counterexample :
    get_login_flow orphanDb "bob" = .error (ApiError.fromStr "Invalid account") ∧
    get_login_flow orphanDb "bob" ≠ .ok (some .oidc) := by decide

/-- Claim C8 (amended): every stored Account that has an OidcAccount row and
no LocalAccount row is reported by login-flow discovery as the OIDC flow; the
OIDC response constructor carries no password or webauthn availability data. -/
theorem discovery_reports_oidc (db : Db) (user_pk : Uuid) (identifier : String)
    (hfind : db.findAccountByIdent identifier = some user_pk)
    (hoidc : db.findOidcByAccount user_pk ≠ none)
    (hlocal : db.findLocalByAccount user_pk = none) :
    get_login_flow db identifier = .ok (some .oidc) := by
  rcases ho : db.findOidcByAccount user_pk with _ | row
  · exact absurd ho hoidc
  · simp [get_login_flow, hfind, ho, hlocal]

theorem discovery_reports_oidc_witness :
    get_login_flow oidcOnlyDb "dora" = .ok (some .oidc) :=
  discovery_reports_oidc oidcOnlyDb 0 "dora" (by decide) (by decide) (by decide)

/-- Claim C4: two successful OIDC finish runs.  With different (issuer,
subject) pairs (both previously unlinked, fresh distinct account uuids), two
distinct Account rows exist afterwards.  With the same pair, the second run
finds the OidcAccount row inserted by the first, reuses its linked Account
(writing that account into the session), and inserts nothing — the database is
unchanged, so the (issuer, subject) uniqueness is preserved. -/
theorem oidc_finish_account_linking (p1 p2 : OidcProvider) (a1 o1 a2 o2 : Uuid)
    (db0 db1 : Db) (s1 s2 : SessionData) (rq1 rq2 : OidcRequestState)
    (st1 st2 : OidcSessionState) (c1 c2 : Claims)
    (hpop1 : sessionLookup s1 "oidc_login_data" = some (.oidc st1))
    (hc1 : (Client.finish_login p1 st1 rq1).1 = .ok c1)
    (hiss1 : c1.issuer.length ≤ 255) (hsub1 : c1.subject.length ≤ 255)
    (habsent1 : db0.findOidcByIssSub c1.issuer c1.subject = none)
    (hdb1 : db1 = (finish_login_oidc p1 a1 o1 db0 s1 rq1).2.1)
    (hpop2 : sessionLookup s2 "oidc_login_data" = some (.oidc st2))
    (hc2 : (Client.finish_login p2 st2 rq2).1 = .ok c2)
    (hiss2 : c2.issuer.length ≤ 255) (hsub2 : c2.subject.length ≤ 255) :
    (¬ (c2.issuer = c1.issuer ∧ c2.subject = c1.subject) →
      db0.findOidcByIssSub c2.issuer c2.subject = none →
      a1 ≠ a2 →
      ({ uuid := a1, id := "" } : Account) ∈
        (finish_login_oidc p2 a2 o2 db1 s2 rq2).2.1.accounts ∧
      ({ uuid := a2, id := "" } : Account) ∈
        (finish_login_oidc p2 a2 o2 db1 s2 rq2).2.1.accounts ∧
      ({ uuid := a1, id := "" } : Account) ≠ { uuid := a2, id := "" }) ∧
    (c2.issuer = c1.issuer → c2.subject = c1.subject →
      (finish_login_oidc p2 a2 o2 db1 s2 rq2).2.1 = db1 ∧
      sessionLookup (finish_login_oidc p2 a2 o2 db1 s2 rq2).2.2 "account" =
        some (.account a1)) := by
  have hrun1 := finish_oidc_run_insert p1 a1 o1 db0 s1 rq1 st1 c1
    hpop1 hc1 hiss1 hsub1 habsent1
  rw [hrun1] at hdb1
  subst hdb1
  constructor
  · intro hne habsent2 hfr
    have habs2 : Db.findOidcByIssSub
        { db0 with
          accounts := db0.accounts ++ [{ uuid := a1, id := "" }],
          oidcAccounts := db0.oidcAccounts ++
            [{ uuid := o1, issuer := c1.issuer, subject := c1.subject, account := a1 }] }
        c2.issuer c2.subject = none := by
      unfold Db.findOidcByIssSub at habsent2 ⊢
      rw [listFind_append_of_none _ _ _ habsent2]
      simp only [List.find?_cons, List.find?_nil]
      have hfalse : (c1.issuer == c2.issuer && c1.subject == c2.subject) = false := by
        rcases not_and_or.mp hne with h | h
        · have hb : (c1.issuer == c2.issuer) = false := by
            simp only [beq_eq_false_iff_ne, ne_eq]
            exact fun hh => h hh.symm
          simp [hb]
        · have hb : (c1.subject == c2.subject) = false := by
            simp only [beq_eq_false_iff_ne, ne_eq]
            exact fun hh => h hh.symm
          simp [hb]
      rw [hfalse]
    have hrun2 := finish_oidc_run_insert p2 a2 o2 _ s2 rq2 st2 c2
      hpop2 hc2 hiss2 hsub2 habs2
    rw [hrun2]
    refine ⟨by simp, by simp, ?_⟩
    simp only [ne_eq, Account.mk.injEq, not_and]
    exact fun h _ => hfr h
  · intro hieq hseq
    have hfound : Db.findOidcByIssSub
        { db0 with
          accounts := db0.accounts ++ [{ uuid := a1, id := "" }],
          oidcAccounts := db0.oidcAccounts ++
            [{ uuid := o1, issuer := c1.issuer, subject := c1.subject, account := a1 }] }
        c2.issuer c2.subject =
        some { uuid := o1, issuer := c1.issuer, subject := c1.subject, account := a1 } := by
      rw [hieq, hseq]
      unfold Db.findOidcByIssSub
      rw [listFind_append_of_none _ _ _ habsent1]
      simp [List.find?_cons]
    have hrun2 := finish_oidc_run_reuse p2 a2 o2 _ s2 rq2 st2 c2
      { uuid := o1, issuer := c1.issuer, subject := c1.subject, account := a1 }
      hpop2 hc2 hiss2 hsub2 hfound
    rw [hrun2]
    exact ⟨rfl, sessionLookup_insert_self _ _ _⟩

theorem oidc_finish_account_linking_witness :
    sessionLookup (finish_login_oidc sampleProvider 3 4 oidcLinkDb1
        [("oidc_login_data", SessValue.oidc sampleOidcState)]
        { code := "c", state := "csrf" }).2.2 "account" = some (.account 1) :=
  ((oidc_finish_account_linking sampleProvider sampleProvider 1 2 3 4 emptyDb oidcLinkDb1
      [("oidc_login_data", SessValue.oidc sampleOidcState)]
      [("oidc_login_data", SessValue.oidc sampleOidcState)]
      { code := "c", state := "csrf" } { code := "c", state := "csrf" }
      sampleOidcState sampleOidcState
      { issuer := "https://idp.example", subject := "alice", access_token_hash := none }
      { issuer := "https://idp.example", subject := "alice", access_token_hash := none }
      (by decide) (by decide) (by decide) (by decide) (by decide) (by decide)
      (by decide) (by decide) (by decide) (by decide)).2 rfl rfl).2

end Galvyn
